import Mathlib

/-!
Shallow embedding of `src/canvas/wayland/config/hyprland.cpp` (ueberzugpp):
the `HyprlandSocket` compositor adapter.

Modelling conventions:
* JSON values (nlohmann::json) are the inductive `Json`; `Json.beq` mirrors
  nlohmann's deep structural `operator==`.
* Every socket exchange is externalised: the responses that the compositor
  would send to `j/activewindow`, `j/monitors` and `j/clients` are passed to
  the embedded operation as parameters, and the fire-and-forget commands the
  code sends through `request` are returned as a list of payload strings, in
  the order the C++ code issues them.
* C++ exceptions (nlohmann `out_of_range` / `type_error`, and the
  `std::runtime_error("Active window not found")`) become the `Except CErr`
  monad.
* C++ `int` arithmetic is `Int` (values in range, no overflow in this code);
  C++ truncating integer division is `Int.tdiv`.  The `float output_scale`
  is modelled as `ℚ`: every scale actually compared here (1.0, 2.0, ...) is
  exactly representable, and the only float operation is the comparison with
  `1.0F`.
-/

/-- JSON value, mirroring `nlohmann::json`.  Numbers are collapsed into one
rational constructor; object fields keep their order (lookups take the first
binding of a key, and parsed nlohmann objects have unique keys anyway). -/
inductive Json where
  | null
  | bool (b : Bool)
  | num (q : ℚ)
  | str (s : String)
  | arr (elements : List Json)
  | obj (fields : List (String × Json))
deriving Repr

mutual

/-- Deep structural equality on JSON values, mirroring nlohmann's
`operator==` (which compares type, then contents). -/
def Json.beq : Json → Json → Bool
  | .null, .null => true
  | .bool a, .bool b => a == b
  | .num a, .num b => a == b
  | .str a, .str b => a == b
  | .arr a, .arr b => Json.beqList a b
  | .obj a, .obj b => Json.beqFields a b
  | _, _ => false

/-- Elementwise `Json.beq` on arrays. -/
def Json.beqList : List Json → List Json → Bool
  | [], [] => true
  | a :: as, b :: bs => Json.beq a b && Json.beqList as bs
  | _, _ => false

/-- Fieldwise `Json.beq` on objects: both key lists and both value lists
must agree pointwise. -/
def Json.beqFields : List (String × Json) → List (String × Json) → Bool
  | [], [] => true
  | f :: fs, g :: gs => f.1 == g.1 && Json.beq f.2 g.2 && Json.beqFields fs gs
  | _, _ => false

end

/-- Errors surfaced by the embedded operations: the nlohmann exceptions
(`missingKey` for `json::out_of_range` on `.at(key)`, `outOfRange` for
`.at(index)` past the end, `typeError` for `json::type_error`) and the
adapter's own `std::runtime_error("Active window not found")`. -/
inductive CErr where
  | missingKey (key : String)
  | outOfRange (idx : Nat)
  | typeError
  | windowNotFound
deriving Repr, DecidableEq

/-- Result of an embedded operation that can throw. -/
abbrev JRes (α : Type) : Type := Except CErr α

/-- Mirrors `json.at(key)`: field lookup on an object, throwing
`out_of_range` when the key is absent and `type_error` on a non-object. -/
def Json.atKey : Json → String → JRes Json
  | .obj fields, key =>
    match fields.find? (fun field => field.1 == key) with
    | some field => .ok field.2
    | none => .error (.missingKey key)
  | _, _ => .error .typeError

/-- Mirrors `json.at(idx)`: array indexing, throwing `out_of_range` past the
end and `type_error` on a non-array. -/
def Json.atIdx : Json → Nat → JRes Json
  | .arr elements, idx =>
    match elements.get? idx with
    | some v => .ok v
    | none => .error (.outOfRange idx)
  | _, _ => .error .typeError

/-- Mirrors nlohmann conversion to `bool` (`bool focused = monitor.at(...)`):
only an actual JSON boolean converts, anything else throws `type_error`. -/
def Json.asBool : Json → JRes Bool
  | .bool b => .ok b
  | _ => .error .typeError

/-- Mirrors nlohmann conversion to `std::string`: only a JSON string
converts, anything else throws `type_error`. -/
def Json.asStr : Json → JRes String
  | .str s => .ok s
  | _ => .error .typeError

/-- Mirrors nlohmann conversion to C++ `int`: any JSON number converts, a
fractional value being truncated toward zero (`static_cast<int>`). -/
def Json.asInt : Json → JRes Int
  | .num q => .ok (Int.tdiv q.num (Int.ofNat q.den))
  | _ => .error .typeError

/-- Mirrors nlohmann conversion to `float` (`output_scale`), kept exact as a
rational. -/
def Json.asRat : Json → JRes ℚ
  | .num q => .ok q
  | _ => .error .typeError

/-- Range-based iteration over a JSON value, as nlohmann's `begin()/end()`
behaves: an array yields its elements, an object its values, `null` is an
empty range, and any primitive is a one-element range.  Used by the
range-for in `set_active_monitor` and by `ranges::find_if` in
`get_active_window`. -/
def Json.elems : Json → List Json
  | .arr elements => elements
  | .obj fields => fields.map Prod.snd
  | .null => []
  | j => [j]

/-- Mirrors `fmt::format("hypr/{}/.socket.sock", signature)`. -/
def socket_rel_path (signature : String) : String :=
  "hypr/" ++ signature ++ "/.socket.sock"

/-- Socket path resolution from the `HyprlandSocket` constructor:
`XDG_RUNTIME_DIR` (defaulting to `/tmp`) plus the relative path, replaced by
the legacy `/tmp`-based path when the primary path does not exist.
`xdg_runtime_dir` is the value of `os::getenv("XDG_RUNTIME_DIR")` and
`fs_exists` is the `fs::exists` oracle of the surrounding filesystem. -/
def compute_socket_path (xdg_runtime_dir : Option String) (signature : String)
    (fs_exists : String → Bool) : String :=
  let socket_base_dir := xdg_runtime_dir.getD "/tmp"
  let primary := socket_base_dir ++ "/" ++ socket_rel_path signature
  if fs_exists primary then primary else "/tmp/" ++ socket_rel_path signature

/-- Modelled from the spec: the member declarations of `HyprlandSocket` live
in `hyprland.hpp`, which is not among the sources; the spec's data model
says the active window reference is an opaque string and the output
descriptor is a name string plus a floating-point scale, set once at
construction.  The state therefore is the three cached fields plus the
socket path. -/
structure HyprlandSocket where
  socket_path : String
  address : String
  output_name : String
  output_scale : ℚ
deriving Repr, DecidableEq

/-- Modelled from the spec: the in-class default of `output_name` (the
header is not among the sources).  A default-constructed `std::string` is
empty, and the spec's C10 reading expects the empty string when no monitor
is focused. -/
def default_output_name : String := ""

/-- Modelled from the spec: the in-class default of `output_scale` (the
header is not among the sources).  Kept abstract as a named constant; no
claim depends on its numeric value, only on it being left unchanged. -/
def default_output_scale : ℚ := 1

/-- Loop body of `set_active_monitor`: scan the monitors in order, and on
the first one whose `focused` field converts to `true`, cache its `name`
and `scale` and stop.  Field accesses and conversions may throw. -/
def set_active_monitor_loop (s : HyprlandSocket) : List Json → JRes HyprlandSocket
  | [] => .ok s
  | monitor :: rest => do
    let focused ← (← monitor.atKey "focused").asBool
    if focused then
      let name ← (← monitor.atKey "name").asStr
      let scale ← (← monitor.atKey "scale").asRat
      return { s with output_name := name, output_scale := scale }
    else
      set_active_monitor_loop s rest

/-- `HyprlandSocket::set_active_monitor`, with the `j/monitors` response
passed in. -/
def HyprlandSocket.set_active_monitor (s : HyprlandSocket) (monitors : Json) :
    JRes HyprlandSocket :=
  set_active_monitor_loop s monitors.elems

/-- The `HyprlandSocket` constructor: resolve the socket path, read the
`address` of the `j/activewindow` response into the cache, then run
`set_active_monitor` on the `j/monitors` response. -/
def HyprlandSocket.construct (xdg_runtime_dir : Option String) (signature : String)
    (fs_exists : String → Bool) (activewindow monitors : Json) : JRes HyprlandSocket := do
  let path := compute_socket_path xdg_runtime_dir signature fs_exists
  let address ← (← activewindow.atKey "address").asStr
  let s : HyprlandSocket :=
    { socket_path := path, address := address,
      output_name := default_output_name, output_scale := default_output_scale }
  s.set_active_monitor monitors

/-- `HyprlandSocket::get_focused_output_name`: returns the cached name. -/
def HyprlandSocket.get_focused_output_name (s : HyprlandSocket) : String :=
  s.output_name

/-- The tmux-guarded refresh at the top of `get_active_window`: when running
under tmux, re-read the `address` field of a fresh `j/activewindow`
response into the cache. -/
def refresh_address (s : HyprlandSocket) (tmux_used : Bool) (activewindow : Json) :
    JRes HyprlandSocket :=
  if tmux_used then do
    let address ← (← activewindow.atKey "address").asStr
    return { s with address := address }
  else
    return s

/-- The predicate of the `ranges::find_if` in `get_active_window`:
`json.at("address") == address`, where the cached address is a string. -/
def addr_matches (address : String) (entry : Json) : JRes Bool := do
  return Json.beq (← entry.atKey "address") (.str address)

/-- `ranges::find_if` over the client list with the throwing predicate:
returns the first entry whose address matches, `none` when the scan runs
off the end, or the first exception the predicate throws. -/
def find_client (address : String) : List Json → JRes (Option Json)
  | [] => .ok none
  | entry :: rest => do
    if ← addr_matches address entry then
      return some entry
    else
      find_client address rest

/-- `HyprlandSocket::get_active_window`, with the tmux signal and the two
socket responses passed in; returns the possibly-refreshed state together
with the found client record, or throws `windowNotFound`. -/
def HyprlandSocket.get_active_window (s : HyprlandSocket) (tmux_used : Bool)
    (activewindow clients : Json) : JRes (HyprlandSocket × Json) := do
  let s' ← refresh_address s tmux_used activewindow
  match ← find_client s'.address clients.elems with
  | none => .error .windowNotFound
  | some client => return (s', client)

/-- Modelled from the spec: `struct WaylandWindowGeometry` is declared in a
header not among the sources; per the spec's data model it is the four
integers width, height, x, y. -/
structure WaylandWindowGeometry where
  width : Int
  height : Int
  x : Int
  y : Int
deriving Repr, DecidableEq

/-- `HyprlandSocket::get_window_info`: fetch the active window and map its
`size` and `at` arrays to a geometry record. -/
def HyprlandSocket.get_window_info (s : HyprlandSocket) (tmux_used : Bool)
    (activewindow clients : Json) : JRes (HyprlandSocket × WaylandWindowGeometry) := do
  let (s', terminal) ← s.get_active_window tmux_used activewindow clients
  let sizes ← terminal.atKey "size"
  let coords ← terminal.atKey "at"
  let width ← (← sizes.atIdx 0).asInt
  let height ← (← sizes.atIdx 1).asInt
  let x ← (← coords.atIdx 0).asInt
  let y ← (← coords.atIdx 1).asInt
  return (s', { width := width, height := height, x := x, y := y })

/-- Payload of `HyprlandSocket::remove_rounding`. -/
def remove_rounding (appid : String) : String :=
  "/keyword windowrulev2 rounding 0,title:" ++ appid

/-- Payload of `HyprlandSocket::disable_focus`. -/
def disable_focus (appid : String) : String :=
  "/keyword windowrulev2 nofocus,title:" ++ appid

/-- Payload of `HyprlandSocket::enable_floating`. -/
def enable_floating (appid : String) : String :=
  "/keyword windowrulev2 float,title:" ++ appid

/-- Payload of `HyprlandSocket::remove_borders`. -/
def remove_borders (appid : String) : String :=
  "/keyword windowrulev2 noborder,title:" ++ appid

/-- `HyprlandSocket::initial_setup`: the commands sent, in issue order
(disable focus, enable floating, remove borders, remove rounding). -/
def initial_setup (appid : String) : List String :=
  [disable_focus appid, enable_floating appid, remove_borders appid, remove_rounding appid]

/-- Payload of `HyprlandSocket::change_workspace`. -/
def change_workspace (appid : String) (workspaceid : Int) : String :=
  "/dispatch movetoworkspacesilent " ++ toString workspaceid ++ ",title:" ++ appid

/-- The `movewindowpixel` payload built at the end of `move_window`. -/
def move_window_pixel_cmd (appid : String) (res_x res_y : Int) : String :=
  "/dispatch movewindowpixel exact " ++ toString res_x ++ " " ++ toString res_y ++
    ",title:" ++ appid

/-- `HyprlandSocket::move_window`: fetch the active window, move it to its
own current workspace, then dispatch the pixel move with the coordinates
halved and offset by 10 when the cached output scale exceeds 1.  Returns
the (possibly refreshed) state and the two command payloads in issue
order. -/
def HyprlandSocket.move_window (s : HyprlandSocket) (tmux_used : Bool)
    (activewindow clients : Json) (appid : String) (xcoord ycoord : Int) :
    JRes (HyprlandSocket × List String) := do
  let (s', terminal) ← s.get_active_window tmux_used activewindow clients
  let workspace ← terminal.atKey "workspace"
  let workspaceid ← (← workspace.atKey "id").asInt
  let res_x := if s'.output_scale > 1 then Int.tdiv xcoord 2 + 10 else xcoord
  let res_y := if s'.output_scale > 1 then Int.tdiv ycoord 2 + 10 else ycoord
  return (s', [change_workspace appid workspaceid, move_window_pixel_cmd appid res_x res_y])

/-- Number of enumerated client entries whose address matches the cached
reference (entries on which the predicate throws are not matches). -/
def matches_count (address : String) (l : List Json) : Nat :=
  (l.filter (fun e =>
    match addr_matches address e with
    | .ok true => true
    | _ => false)).length

/-! ### Concrete sample responses and states used by the witnesses -/

/-- A well-formed `j/activewindow` response. -/
def sample_activewindow : Json := .obj [("address", .str "0x1f00")]

/-- A `j/monitors` response with one focused monitor. -/
def sample_monitors : Json :=
  .arr [.obj [("focused", .bool true), ("name", .str "DP-1"), ("scale", .num 1)]]

/-- A well-formed client entry matching `sample_activewindow`. -/
def sample_client_entry : Json :=
  .obj [("address", .str "0x1f00"), ("size", .arr [.num 800, .num 600]),
        ("at", .arr [.num 10, .num 20]), ("workspace", .obj [("id", .num 3)])]

/-- A `j/clients` response holding exactly that entry. -/
def sample_clients : Json := .arr [sample_client_entry]

/-- A `j/clients` response holding the matching entry twice. -/
def dup_clients : Json := .arr [sample_client_entry, sample_client_entry]

/-- A `j/clients` response whose only entry has no address field. -/
def bad_clients : Json := .arr [Json.obj []]

/-- The client state produced by constructing against the sample responses
(output scale 1). -/
def sample_state : HyprlandSocket :=
  { socket_path := "/run/user/1000/hypr/sig0/.socket.sock", address := "0x1f00",
    output_name := "DP-1", output_scale := 1 }

/-- The same client with a cached output scale of 2. -/
def sample_state2 : HyprlandSocket :=
  { socket_path := "/run/user/1000/hypr/sig0/.socket.sock", address := "0x1f00",
    output_name := "DP-1", output_scale := 2 }

/-- A `j/monitors` response whose only monitor lacks a `focused` field. -/
def bad_monitors : Json := .arr [Json.obj []]

/-- A `j/monitors` response whose only monitor is explicitly unfocused. -/
def unfocused_monitors : Json := .arr [.obj [("focused", .bool false)]]

/-! ### Unfolding equations and generic helper lemmas -/

theorem ok_bind {α β : Type} (a : α) (f : α → JRes β) :
    (Except.ok a : JRes α).bind f = f a := rfl

theorem error_bind {α β : Type} (e : CErr) (f : α → JRes β) :
    (Except.error e : JRes α).bind f = .error e := rfl

theorem addr_matches_eq (address : String) (entry : Json) :
    addr_matches address entry =
      (entry.atKey "address").bind (fun j => .ok (Json.beq j (.str address))) := rfl

theorem find_client_nil (address : String) : find_client address [] = .ok none := rfl

theorem find_client_cons (address : String) (entry : Json) (rest : List Json) :
    find_client address (entry :: rest) =
      (addr_matches address entry).bind (fun b =>
        if b then .ok (some entry) else find_client address rest) := rfl

theorem refresh_address_false (s : HyprlandSocket) (activewindow : Json) :
    refresh_address s false activewindow = .ok s := rfl

theorem refresh_address_true (s : HyprlandSocket) (activewindow : Json) :
    refresh_address s true activewindow =
      (activewindow.atKey "address").bind (fun j =>
        j.asStr.bind (fun address => .ok { s with address := address })) := rfl

theorem get_active_window_eq (s : HyprlandSocket) (tmux_used : Bool)
    (activewindow clients : Json) :
    s.get_active_window tmux_used activewindow clients =
      (refresh_address s tmux_used activewindow).bind (fun s' =>
        (find_client s'.address clients.elems).bind (fun r =>
          match r with
          | none => .error .windowNotFound
          | some client => .ok (s', client))) := rfl

theorem set_active_monitor_loop_nil (s : HyprlandSocket) :
    set_active_monitor_loop s [] = .ok s := rfl

theorem set_active_monitor_loop_cons (s : HyprlandSocket) (monitor : Json)
    (rest : List Json) :
    set_active_monitor_loop s (monitor :: rest) =
      (monitor.atKey "focused").bind (fun jf => jf.asBool.bind (fun focused =>
        if focused then
          (monitor.atKey "name").bind (fun jn => jn.asStr.bind (fun name =>
            (monitor.atKey "scale").bind (fun js => js.asRat.bind (fun scale =>
              .ok { s with output_name := name, output_scale := scale }))))
        else
          set_active_monitor_loop s rest)) := rfl

theorem construct_eq (xdg_runtime_dir : Option String) (signature : String)
    (fs_exists : String → Bool) (activewindow monitors : Json) :
    HyprlandSocket.construct xdg_runtime_dir signature fs_exists activewindow monitors =
      (activewindow.atKey "address").bind (fun j => j.asStr.bind (fun address =>
        HyprlandSocket.set_active_monitor
          { socket_path := compute_socket_path xdg_runtime_dir signature fs_exists,
            address := address, output_name := default_output_name,
            output_scale := default_output_scale }
          monitors)) := rfl

theorem get_window_info_eq (s : HyprlandSocket) (tmux_used : Bool)
    (activewindow clients : Json) :
    s.get_window_info tmux_used activewindow clients =
      (s.get_active_window tmux_used activewindow clients).bind (fun p =>
        (p.2.atKey "size").bind (fun sizes =>
          (p.2.atKey "at").bind (fun coords =>
            (sizes.atIdx 0).bind (fun j0 => j0.asInt.bind (fun width =>
              (sizes.atIdx 1).bind (fun j1 => j1.asInt.bind (fun height =>
                (coords.atIdx 0).bind (fun j2 => j2.asInt.bind (fun x =>
                  (coords.atIdx 1).bind (fun j3 => j3.asInt.bind (fun y =>
                    .ok (p.1, ⟨width, height, x, y⟩)))))))))))) := rfl

theorem move_window_eq (s : HyprlandSocket) (tmux_used : Bool) (activewindow clients : Json)
    (appid : String) (xcoord ycoord : Int) :
    s.move_window tmux_used activewindow clients appid xcoord ycoord =
      (s.get_active_window tmux_used activewindow clients).bind (fun p =>
        (p.2.atKey "workspace").bind (fun workspace =>
          (workspace.atKey "id").bind (fun j => j.asInt.bind (fun workspaceid =>
            .ok (p.1, [change_workspace appid workspaceid,
              move_window_pixel_cmd appid
                (if p.1.output_scale > 1 then Int.tdiv xcoord 2 + 10 else xcoord)
                (if p.1.output_scale > 1 then Int.tdiv ycoord 2 + 10 else ycoord)]))))) := rfl

/-- If every entry of the list carries an address field, the find_if
predicate never throws on it. -/
theorem addr_matches_total (address : String) (entry : Json) (a : Json)
    (h : entry.atKey "address" = .ok a) :
    addr_matches address entry = .ok (Json.beq a (.str address)) := by
  rw [addr_matches_eq, h, ok_bind]

/-- A scan over entries whose predicate always evaluates cleanly never
throws: it returns some optional result. -/
theorem find_client_total (address : String) (l : List Json)
    (hwf : ∀ e ∈ l, ∃ b, addr_matches address e = .ok b) :
    ∃ r, find_client address l = .ok r := by
  induction l with
  | nil => exact ⟨none, rfl⟩
  | cons e rest ih =>
    obtain ⟨b, hb⟩ := hwf e (List.mem_cons_self e rest)
    obtain ⟨r, hr⟩ := ih (fun e' he' => hwf e' (List.mem_cons_of_mem e he'))
    rw [find_client_cons, hb, ok_bind]
    cases b with
    | true => exact ⟨some e, rfl⟩
    | false => exact ⟨r, by simpa using hr⟩

/-- The scan runs off the end exactly when the predicate is false on every
entry (given that it never throws). -/
theorem find_client_eq_none_iff (address : String) (l : List Json)
    (hwf : ∀ e ∈ l, ∃ b, addr_matches address e = .ok b) :
    find_client address l = .ok none ↔ ∀ e ∈ l, addr_matches address e = .ok false := by
  induction l with
  | nil => simp [find_client_nil]
  | cons e rest ih =>
    obtain ⟨b, hb⟩ := hwf e (List.mem_cons_self e rest)
    rw [find_client_cons, hb, ok_bind]
    cases b with
    | true =>
      simp only [if_true]
      constructor
      · intro h; cases h
      · intro h
        have := h e (List.mem_cons_self e rest)
        rw [hb] at this
        cases this
    | false =>
      rw [if_neg (by simp)]
      rw [ih (fun e' he' => hwf e' (List.mem_cons_of_mem e he'))]
      constructor
      · intro h e' he'
        rcases List.mem_cons.mp he' with he' | he'
        · subst he'; exact hb
        · exact h e' he'
      · intro h e' he'
        exact h e' (List.mem_cons_of_mem e he')

/-- Whatever entry the scan returns is a member of the list and satisfies
the predicate. -/
theorem find_client_some (address : String) (l : List Json) (r : Json)
    (h : find_client address l = .ok (some r)) :
    r ∈ l ∧ addr_matches address r = .ok true := by
  induction l with
  | nil => cases h
  | cons e rest ih =>
    rw [find_client_cons] at h
    cases hb : addr_matches address e with
    | error err => rw [hb, error_bind] at h; cases h
    | ok b =>
      rw [hb, ok_bind] at h
      cases b with
      | true =>
        rw [if_pos rfl] at h
        have he : some e = some r := by injection h
        have he2 : e = r := by injection he
        subst he2
        exact ⟨List.mem_cons_self _ _, hb⟩
      | false =>
        rw [if_neg (by simp)] at h
        obtain ⟨hmem, hm⟩ := ih h
        exact ⟨List.mem_cons_of_mem e hmem, hm⟩

/-- The scan returns the first entry satisfying the predicate: entries
before it evaluate to false, and it evaluates to true. -/
theorem find_client_first (address : String) (pre : List Json) (c : Json) (post : List Json)
    (hpre : ∀ e ∈ pre, addr_matches address e = .ok false)
    (hc : addr_matches address c = .ok true) :
    find_client address (pre ++ c :: post) = .ok (some c) := by
  induction pre with
  | nil => rw [List.nil_append, find_client_cons, hc, ok_bind, if_pos rfl]
  | cons e pre' ih =>
    rw [List.cons_append, find_client_cons, hpre e (List.mem_cons_self e pre'),
      ok_bind, if_neg (by simp)]
    exact ih (fun e' he' => hpre e' (List.mem_cons_of_mem e he'))

/-- The tmux refresh only rewrites the cached address: socket path and
output descriptor are untouched. -/
theorem refresh_address_preserves (s s' : HyprlandSocket) (tmux_used : Bool)
    (activewindow : Json) (h : refresh_address s tmux_used activewindow = .ok s') :
    s'.socket_path = s.socket_path ∧ s'.output_name = s.output_name ∧
    s'.output_scale = s.output_scale := by
  cases tmux_used with
  | false =>
    rw [refresh_address_false] at h
    cases h
    exact ⟨rfl, rfl, rfl⟩
  | true =>
    rw [refresh_address_true] at h
    cases hk : activewindow.atKey "address" with
    | error err => rw [hk, error_bind] at h; cases h
    | ok j =>
      rw [hk, ok_bind] at h
      cases hs : j.asStr with
      | error err => rw [hs, error_bind] at h; cases h
      | ok a =>
        rw [hs, ok_bind] at h
        cases h
        exact ⟨rfl, rfl, rfl⟩

/-- A successful active-window lookup yields the refreshed state: the scan
itself does not mutate the client. -/
theorem get_active_window_ok (s s' : HyprlandSocket) (tmux_used : Bool)
    (activewindow clients : Json) (w : Json)
    (h : s.get_active_window tmux_used activewindow clients = .ok (s', w)) :
    refresh_address s tmux_used activewindow = .ok s' ∧
    find_client s'.address clients.elems = .ok (some w) := by
  rw [get_active_window_eq] at h
  cases hre : refresh_address s tmux_used activewindow with
  | error err => rw [hre, error_bind] at h; cases h
  | ok s'' =>
    rw [hre, ok_bind] at h
    cases hf : find_client s''.address clients.elems with
    | error err => rw [hf, error_bind] at h; cases h
    | ok r =>
      rw [hf, ok_bind] at h
      cases r with
      | none => cases h
      | some c =>
        simp only at h
        have hp : (s'', c) = (s', w) := by injection h
        have h1 : s'' = s' := congrArg Prod.fst hp
        have h2 : c = w := congrArg Prod.snd hp
        subst h1; subst h2
        exact ⟨rfl, hf⟩

/-- A successful active-window lookup leaves socket path and output
descriptor unchanged. -/
theorem get_active_window_preserves (s s' : HyprlandSocket) (tmux_used : Bool)
    (activewindow clients : Json) (w : Json)
    (h : s.get_active_window tmux_used activewindow clients = .ok (s', w)) :
    s'.socket_path = s.socket_path ∧ s'.output_name = s.output_name ∧
    s'.output_scale = s.output_scale :=
  refresh_address_preserves s s' tmux_used activewindow (get_active_window_ok s s' tmux_used activewindow clients w h).1

/-- A successful geometry query goes through a successful active-window
lookup returning the same state. -/
theorem get_window_info_ok (s s' : HyprlandSocket) (tmux_used : Bool)
    (activewindow clients : Json) (g : WaylandWindowGeometry)
    (h : s.get_window_info tmux_used activewindow clients = .ok (s', g)) :
    ∃ w, s.get_active_window tmux_used activewindow clients = .ok (s', w) := by
  rw [get_window_info_eq] at h
  cases hga : s.get_active_window tmux_used activewindow clients with
  | error err => rw [hga, error_bind] at h; cases h
  | ok p =>
    rw [hga, ok_bind] at h
    refine ⟨p.2, ?_⟩
    cases h1 : p.2.atKey "size" with
    | error err => rw [h1, error_bind] at h; cases h
    | ok sizes =>
    rw [h1, ok_bind] at h
    cases h2 : p.2.atKey "at" with
    | error err => rw [h2, error_bind] at h; cases h
    | ok coords =>
    rw [h2, ok_bind] at h
    cases h3 : sizes.atIdx 0 with
    | error err => rw [h3, error_bind] at h; cases h
    | ok j0 =>
    rw [h3, ok_bind] at h
    cases h4 : j0.asInt with
    | error err => rw [h4, error_bind] at h; cases h
    | ok width =>
    rw [h4, ok_bind] at h
    cases h5 : sizes.atIdx 1 with
    | error err => rw [h5, error_bind] at h; cases h
    | ok j1 =>
    rw [h5, ok_bind] at h
    cases h6 : j1.asInt with
    | error err => rw [h6, error_bind] at h; cases h
    | ok height =>
    rw [h6, ok_bind] at h
    cases h7 : coords.atIdx 0 with
    | error err => rw [h7, error_bind] at h; cases h
    | ok j2 =>
    rw [h7, ok_bind] at h
    cases h8 : j2.asInt with
    | error err => rw [h8, error_bind] at h; cases h
    | ok x =>
    rw [h8, ok_bind] at h
    cases h9 : coords.atIdx 1 with
    | error err => rw [h9, error_bind] at h; cases h
    | ok j3 =>
    rw [h9, ok_bind] at h
    cases h10 : j3.asInt with
    | error err => rw [h10, error_bind] at h; cases h
    | ok y =>
    rw [h10, ok_bind] at h
    have hp : (p.1, (⟨width, height, x, y⟩ : WaylandWindowGeometry)) = (s', g) := by injection h
    have h1' : p.1 = s' := congrArg Prod.fst hp
    rw [← h1']


/-- A successful `move_window` decomposes into a successful active-window
lookup, a successful workspace-id extraction from the fetched record, and
exactly the two dispatch commands, workspace move first. -/
theorem move_window_ok (s s' : HyprlandSocket) (tmux_used : Bool) (activewindow clients : Json)
    (appid : String) (xcoord ycoord : Int) (cmds : List String)
    (h : s.move_window tmux_used activewindow clients appid xcoord ycoord = .ok (s', cmds)) :
    ∃ terminal workspaceid,
      s.get_active_window tmux_used activewindow clients = .ok (s', terminal) ∧
      (terminal.atKey "workspace").bind (fun w => (w.atKey "id").bind Json.asInt) =
        .ok workspaceid ∧
      cmds = [change_workspace appid workspaceid,
        move_window_pixel_cmd appid
          (if s'.output_scale > 1 then Int.tdiv xcoord 2 + 10 else xcoord)
          (if s'.output_scale > 1 then Int.tdiv ycoord 2 + 10 else ycoord)] := by
  rw [move_window_eq] at h
  cases hga : s.get_active_window tmux_used activewindow clients with
  | error err => rw [hga, error_bind] at h; cases h
  | ok p =>
    rw [hga, ok_bind] at h
    cases hw : p.2.atKey "workspace" with
    | error err => rw [hw, error_bind] at h; cases h
    | ok workspace =>
    rw [hw, ok_bind] at h
    cases hid : workspace.atKey "id" with
    | error err => rw [hid, error_bind] at h; cases h
    | ok j =>
    rw [hid, ok_bind] at h
    cases hint : j.asInt with
    | error err => rw [hint, error_bind] at h; cases h
    | ok workspaceid =>
    rw [hint, ok_bind] at h
    have hp := h
    have h1 : p.1 = s' := by
      have : (p.1,
          [change_workspace appid workspaceid,
            move_window_pixel_cmd appid
              (if p.1.output_scale > 1 then Int.tdiv xcoord 2 + 10 else xcoord)
              (if p.1.output_scale > 1 then Int.tdiv ycoord 2 + 10 else ycoord)]) = (s', cmds) := by
        injection hp
      exact congrArg Prod.fst this
    refine ⟨p.2, workspaceid, ?_, ?_, ?_⟩
    · rw [← h1]
    · rw [hw, ok_bind, hid, ok_bind, hint]
    · have : (p.1,
          [change_workspace appid workspaceid,
            move_window_pixel_cmd appid
              (if p.1.output_scale > 1 then Int.tdiv xcoord 2 + 10 else xcoord)
              (if p.1.output_scale > 1 then Int.tdiv ycoord 2 + 10 else ycoord)]) = (s', cmds) := by
        injection hp
      have h2 : [change_workspace appid workspaceid,
          move_window_pixel_cmd appid
            (if p.1.output_scale > 1 then Int.tdiv xcoord 2 + 10 else xcoord)
            (if p.1.output_scale > 1 then Int.tdiv ycoord 2 + 10 else ycoord)] = cmds :=
        congrArg Prod.snd this
      rw [h1] at h2
      exact h2.symm

example : HyprlandSocket.construct (some "/run/user/1000") "sig0" (fun _ => true)
    sample_activewindow sample_monitors = .ok sample_state := rfl

example : sample_state.get_active_window false Json.null sample_clients =
    .ok (sample_state, sample_client_entry) := rfl

example : sample_state.move_window false Json.null sample_clients "app" 100 200 =
    .ok (sample_state, ["/dispatch movetoworkspacesilent 3,title:app",
      "/dispatch movewindowpixel exact 100 200,title:app"]) := rfl

example : sample_state2.move_window false Json.null sample_clients "app" 100 200 =
    .ok (sample_state2, ["/dispatch movetoworkspacesilent 3,title:app",
      "/dispatch movewindowpixel exact 60 110,title:app"]) := rfl

example : sample_state.get_active_window false Json.null bad_clients =
    .error (.missingKey "address") := rfl

example : matches_count sample_state.address dup_clients.elems = 2 := rfl

/-- The monitor scan, wherever it stops, never touches the socket path or
the cached address. -/
theorem set_active_monitor_loop_keeps (s s' : HyprlandSocket) (l : List Json)
    (h : set_active_monitor_loop s l = .ok s') :
    s'.socket_path = s.socket_path ∧ s'.address = s.address := by
  induction l with
  | nil =>
    rw [set_active_monitor_loop_nil] at h
    cases h
    exact ⟨rfl, rfl⟩
  | cons monitor rest ih =>
    rw [set_active_monitor_loop_cons] at h
    cases hk : monitor.atKey "focused" with
    | error err => rw [hk, error_bind] at h; cases h
    | ok jf =>
    rw [hk, ok_bind] at h
    cases hb : jf.asBool with
    | error err => rw [hb, error_bind] at h; cases h
    | ok focused =>
    rw [hb, ok_bind] at h
    cases focused with
    | false =>
      rw [if_neg (by simp)] at h
      exact ih h
    | true =>
      rw [if_pos rfl] at h
      cases hn : monitor.atKey "name" with
      | error err => rw [hn, error_bind] at h; cases h
      | ok jn =>
      rw [hn, ok_bind] at h
      cases hns : jn.asStr with
      | error err => rw [hns, error_bind] at h; cases h
      | ok name =>
      rw [hns, ok_bind] at h
      cases hsc : monitor.atKey "scale" with
      | error err => rw [hsc, error_bind] at h; cases h
      | ok js =>
      rw [hsc, ok_bind] at h
      cases hsr : js.asRat with
      | error err => rw [hsr, error_bind] at h; cases h
      | ok scale =>
      rw [hsr, ok_bind] at h
      cases h
      exact ⟨rfl, rfl⟩

/-- Monitors whose `focused` field converts to `false` are skipped by the
scan without touching the state. -/
theorem set_active_monitor_loop_skip (s : HyprlandSocket) (pre rest : List Json)
    (hpre : ∀ m ∈ pre, (m.atKey "focused").bind Json.asBool = .ok false) :
    set_active_monitor_loop s (pre ++ rest) = set_active_monitor_loop s rest := by
  induction pre with
  | nil => rw [List.nil_append]
  | cons m pre' ih =>
    have hm := hpre m (List.mem_cons_self m pre')
    rw [List.cons_append, set_active_monitor_loop_cons]
    cases hk : m.atKey "focused" with
    | error err => rw [hk, error_bind] at hm; cases hm
    | ok jf =>
      rw [hk, ok_bind] at hm
      rw [ok_bind, hm, ok_bind, if_neg (by simp)]
      exact ih (fun m' hm' => hpre m' (List.mem_cons_of_mem m hm'))

/-- When the head of the remaining monitor list is focused, the scan stops
there and caches its name and scale. -/
theorem set_active_monitor_first_focused (s s' : HyprlandSocket) (m : Json)
    (rest : List Json) (n : String)
    (hm : (m.atKey "focused").bind Json.asBool = .ok true)
    (hn : (m.atKey "name").bind Json.asStr = .ok n)
    (h : set_active_monitor_loop s (m :: rest) = .ok s') :
    s'.output_name = n := by
  rw [set_active_monitor_loop_cons] at h
  cases hk : m.atKey "focused" with
  | error err => rw [hk, error_bind] at hm; cases hm
  | ok jf =>
  rw [hk, ok_bind] at hm h
  rw [hm, ok_bind, if_pos rfl] at h
  cases hkn : m.atKey "name" with
  | error err => rw [hkn, error_bind] at hn; cases hn
  | ok jn =>
  rw [hkn, ok_bind] at hn h
  rw [hn, ok_bind] at h
  cases hsc : m.atKey "scale" with
  | error err => rw [hsc, error_bind] at h; cases h
  | ok js =>
  rw [hsc, ok_bind] at h
  cases hsr : js.asRat with
  | error err => rw [hsr, error_bind] at h; cases h
  | ok scale =>
  rw [hsr, ok_bind] at h
  cases h
  rfl

/-- A successful construction decomposes into the address extraction and
the monitor scan started from the freshly resolved socket path and the
default output descriptor. -/
theorem construct_ok (xdg_runtime_dir : Option String) (signature : String)
    (fs_exists : String → Bool) (activewindow monitors : Json) (s : HyprlandSocket)
    (h : HyprlandSocket.construct xdg_runtime_dir signature fs_exists activewindow monitors =
      .ok s) :
    ∃ a, (activewindow.atKey "address").bind Json.asStr = .ok a ∧
      set_active_monitor_loop
        { socket_path := compute_socket_path xdg_runtime_dir signature fs_exists,
          address := a, output_name := default_output_name,
          output_scale := default_output_scale }
        monitors.elems = .ok s := by
  rw [construct_eq] at h
  cases hk : activewindow.atKey "address" with
  | error err => rw [hk, error_bind] at h; cases h
  | ok j =>
    rw [hk, ok_bind] at h
    cases hs : j.asStr with
    | error err => rw [hs, error_bind] at h; cases h
    | ok a =>
      rw [hs, ok_bind] at h
      exact ⟨a, by rw [ok_bind, hs], h⟩

/-- Appending the relative socket path after a slash is the same as the
flat concatenation the spec writes out. -/
theorem socket_rel_path_append (base signature : String) :
    base ++ "/" ++ socket_rel_path signature =
      base ++ "/hypr/" ++ signature ++ "/.socket.sock" := by
  simp only [socket_rel_path, String.append_assoc]
  rfl

/-- The legacy fallback path written out flat. -/
theorem socket_rel_path_tmp (signature : String) :
    "/tmp/" ++ socket_rel_path signature = "/tmp/hypr/" ++ signature ++ "/.socket.sock" := by
  simp only [socket_rel_path, String.append_assoc]
  rfl

/-- Socket path resolution, characterised the way the spec states it. -/
theorem compute_socket_path_spec (xdg_runtime_dir : Option String) (signature : String)
    (fs_exists : String → Bool) :
    compute_socket_path xdg_runtime_dir signature fs_exists =
      if fs_exists ((xdg_runtime_dir.getD "/tmp") ++ "/hypr/" ++ signature ++ "/.socket.sock")
      then (xdg_runtime_dir.getD "/tmp") ++ "/hypr/" ++ signature ++ "/.socket.sock"
      else "/tmp/hypr/" ++ signature ++ "/.socket.sock" := by
  simp only [compute_socket_path]
  rw [socket_rel_path_append, socket_rel_path_tmp]

/-- A member satisfying the match predicate forces at least one match. -/
theorem matches_count_pos (address : String) (l : List Json) (w : Json)
    (hmem : w ∈ l) (hw : addr_matches address w = .ok true) :
    1 ≤ matches_count address l := by
  have hpred : (match addr_matches address w with
      | .ok true => true
      | _ => false) = true := by rw [hw]
  exact List.length_pos_of_mem (List.mem_filter.mpr ⟨hmem, hpred⟩)

/-- With a never-throwing predicate, zero matches means the predicate is
false on every entry. -/
theorem matches_count_zero (address : String) (l : List Json)
    (h : matches_count address l = 0)
    (hwf : ∀ e ∈ l, ∃ b, addr_matches address e = .ok b) :
    ∀ e ∈ l, addr_matches address e = .ok false := by
  intro e he
  obtain ⟨b, hb⟩ := hwf e he
  cases b with
  | false => exact hb
  | true =>
    exfalso
    have h1 : 1 ≤ matches_count address l := matches_count_pos address l e he hb
    omega

/-! ### Claim theorems -/

/-- C1 (counterexample): the claim fails as universally stated.  For a
genuinely constructed client and a `j/clients` response whose single entry
has no `address` field, no entry has an address equal to the cached
reference, yet `get_active_window` raises the nlohmann missing-key error,
not the not-found error. -/
theorem C1_counterexample :
    HyprlandSocket.construct (some "/run/user/1000") "sig0" (fun _ => true)
        sample_activewindow sample_monitors = .ok sample_state ∧
    bad_clients.elems = [Json.obj []] ∧
    addr_matches sample_state.address (Json.obj []) = .error (.missingKey "address") ∧
    sample_state.get_active_window false Json.null bad_clients =
      .error (.missingKey "address") ∧
    CErr.missingKey "address" ≠ CErr.windowNotFound :=
  ⟨rfl, rfl, rfl, rfl, by decide⟩

/-- C1 (amended): for every client state whose address refresh step
succeeds and every `j/clients` response in which every enumerated entry
carries an `address` field, `get_active_window` raises the not-found error
if and only if no entry's address equals the cached (post-refresh) active
window reference; when a match exists, a matching window record is
returned. -/
theorem C1_amended (s s' : HyprlandSocket) (tmux_used : Bool) (activewindow clients : Json)
    (hre : refresh_address s tmux_used activewindow = .ok s')
    (hwf : ∀ e ∈ clients.elems, ∃ a, e.atKey "address" = .ok a) :
    (s.get_active_window tmux_used activewindow clients = .error .windowNotFound ↔
      ∀ e ∈ clients.elems, addr_matches s'.address e = .ok false) ∧
    (∀ c ∈ clients.elems, addr_matches s'.address c = .ok true →
      ∃ w, w ∈ clients.elems ∧ addr_matches s'.address w = .ok true ∧
        s.get_active_window tmux_used activewindow clients = .ok (s', w)) := by
  have hwf' : ∀ e ∈ clients.elems, ∃ b, addr_matches s'.address e = .ok b := by
    intro e he
    obtain ⟨a, ha⟩ := hwf e he
    exact ⟨_, addr_matches_total s'.address e a ha⟩
  rw [get_active_window_eq, hre, ok_bind]
  obtain ⟨r, hr⟩ := find_client_total s'.address clients.elems hwf'
  rw [hr, ok_bind]
  constructor
  · cases r with
    | none =>
      constructor
      · intro _
        exact (find_client_eq_none_iff _ _ hwf').mp hr
      · intro _
        rfl
    | some c =>
      constructor
      · intro hcontra
        cases hcontra
      · intro hall
        have hnone := (find_client_eq_none_iff _ _ hwf').mpr hall
        rw [hr] at hnone
        simp at hnone
  · intro c hc hmc
    cases r with
    | none =>
      have hfalse := (find_client_eq_none_iff _ _ hwf').mp hr c hc
      rw [hmc] at hfalse
      simp at hfalse
    | some w =>
      obtain ⟨hwmem, hwm⟩ := find_client_some s'.address clients.elems w hr
      exact ⟨w, hwmem, hwm, rfl⟩

/-- C1 (witness): the amended theorem applied to the constructed sample
client and a well-formed one-entry client list. -/
theorem C1_witness :
    sample_state.get_active_window false Json.null sample_clients = .error .windowNotFound ↔
      ∀ e ∈ sample_clients.elems, addr_matches sample_state.address e = .ok false :=
  (C1_amended sample_state sample_state false Json.null sample_clients rfl
    (by
      intro e he
      have he' : e = sample_client_entry := by
        simpa [sample_clients, Json.elems] using he
      subst he'
      exact ⟨Json.str "0x1f00", rfl⟩)).1

/-- C2: whenever `move_window` completes, the workspace-move command is
issued strictly before the pixel-move command, and the workspace id in it
is exactly the `workspace.id` of the active window record fetched at the
start of the call. -/
theorem C2_workspace_move_first (s s' : HyprlandSocket) (tmux_used : Bool)
    (activewindow clients : Json) (appid : String) (xcoord ycoord : Int)
    (cmds : List String)
    (h : s.move_window tmux_used activewindow clients appid xcoord ycoord = .ok (s', cmds)) :
    ∃ terminal workspaceid pixel_cmd,
      s.get_active_window tmux_used activewindow clients = .ok (s', terminal) ∧
      (terminal.atKey "workspace").bind (fun w => (w.atKey "id").bind Json.asInt) =
        .ok workspaceid ∧
      cmds = [change_workspace appid workspaceid, pixel_cmd] := by
  obtain ⟨terminal, workspaceid, hga, hwid, hcmds⟩ :=
    move_window_ok s s' tmux_used activewindow clients appid xcoord ycoord cmds h
  exact ⟨terminal, workspaceid, _, hga, hwid, hcmds⟩

/-- C2 (witness): concrete successful call; the first command is the
workspace move carrying workspace id 3 from the fetched record. -/
theorem C2_witness :
    ∃ terminal workspaceid pixel_cmd,
      sample_state.get_active_window false Json.null sample_clients =
        .ok (sample_state, terminal) ∧
      (terminal.atKey "workspace").bind (fun w => (w.atKey "id").bind Json.asInt) =
        .ok workspaceid ∧
      ["/dispatch movetoworkspacesilent 3,title:app",
       "/dispatch movewindowpixel exact 100 200,title:app"] =
        [change_workspace "app" workspaceid, pixel_cmd] :=
  C2_workspace_move_first sample_state sample_state false Json.null sample_clients
    "app" 100 200
    ["/dispatch movetoworkspacesilent 3,title:app",
     "/dispatch movewindowpixel exact 100 200,title:app"] rfl

/-- C3: whenever `move_window` completes, the pixel-move command carries
`x/2 + 10` and `y/2 + 10` (C++ truncating division) when the cached output
scale exceeds 1, and exactly `x` and `y` otherwise. -/
theorem C3_pixel_scaling (s s' : HyprlandSocket) (tmux_used : Bool)
    (activewindow clients : Json) (appid : String) (xcoord ycoord : Int)
    (cmds : List String)
    (h : s.move_window tmux_used activewindow clients appid xcoord ycoord = .ok (s', cmds)) :
    ∃ workspace_cmd,
      cmds = [workspace_cmd,
        if s.output_scale > 1 then
          move_window_pixel_cmd appid (Int.tdiv xcoord 2 + 10) (Int.tdiv ycoord 2 + 10)
        else
          move_window_pixel_cmd appid xcoord ycoord] := by
  obtain ⟨terminal, workspaceid, hga, hwid, hcmds⟩ :=
    move_window_ok s s' tmux_used activewindow clients appid xcoord ycoord cmds h
  have hsc : s'.output_scale = s.output_scale :=
    (get_active_window_preserves s s' tmux_used activewindow clients terminal hga).2.2
  refine ⟨change_workspace appid workspaceid, ?_⟩
  rw [hcmds, hsc]
  by_cases hgt : s.output_scale > 1
  · rw [if_pos hgt, if_pos hgt, if_pos hgt]
  · rw [if_neg hgt, if_neg hgt, if_neg hgt]

/-- C3 (witness): the two concrete cases of the claim.  With scale 2 and
input (100, 200) the dispatched payload is exactly `60 110`; with scale 1
it is exactly `100 200`. -/
theorem C3_witness :
    (Int.tdiv 100 2 + 10 = 60 ∧ Int.tdiv 200 2 + 10 = 110) ∧
    (∃ workspace_cmd,
      ["/dispatch movetoworkspacesilent 3,title:app",
       "/dispatch movewindowpixel exact 60 110,title:app"] =
        [workspace_cmd,
          if sample_state2.output_scale > 1 then
            move_window_pixel_cmd "app" (Int.tdiv 100 2 + 10) (Int.tdiv 200 2 + 10)
          else
            move_window_pixel_cmd "app" 100 200]) ∧
    (∃ workspace_cmd,
      ["/dispatch movetoworkspacesilent 3,title:app",
       "/dispatch movewindowpixel exact 100 200,title:app"] =
        [workspace_cmd,
          if sample_state.output_scale > 1 then
            move_window_pixel_cmd "app" (Int.tdiv 100 2 + 10) (Int.tdiv 200 2 + 10)
          else
            move_window_pixel_cmd "app" 100 200]) :=
  ⟨⟨by decide, by decide⟩,
   C3_pixel_scaling sample_state2 sample_state2 false Json.null sample_clients "app" 100 200
     ["/dispatch movetoworkspacesilent 3,title:app",
      "/dispatch movewindowpixel exact 60 110,title:app"] rfl,
   C3_pixel_scaling sample_state sample_state false Json.null sample_clients "app" 100 200
     ["/dispatch movetoworkspacesilent 3,title:app",
      "/dispatch movewindowpixel exact 100 200,title:app"] rfl⟩

/-- C4: `initial_setup` issues exactly four rule commands, each of the form
`/keyword windowrulev2 RULE,title:appid`, in the fixed order nofocus,
float, noborder, rounding 0 — and nothing else. -/
theorem C4_initial_setup (appid : String) :
    initial_setup appid =
      ["/keyword windowrulev2 nofocus,title:" ++ appid,
       "/keyword windowrulev2 float,title:" ++ appid,
       "/keyword windowrulev2 noborder,title:" ++ appid,
       "/keyword windowrulev2 rounding 0,title:" ++ appid] := rfl

/-- C5: for a constructed client, `get_focused_output_name` returns exactly
the name of the first monitor whose `focused` field was true in the
construction-time `j/monitors` response, and no later operation changes
that cached name: every state a successful operation returns carries the
same focused-output name. -/
theorem C5_focused_output_snapshot (xdg_runtime_dir : Option String) (signature : String)
    (fs_exists : String → Bool) (activewindow monitors : Json) (s : HyprlandSocket)
    (pre post : List Json) (m : Json) (n : String)
    (hsplit : monitors.elems = pre ++ m :: post)
    (hpre : ∀ m' ∈ pre, (m'.atKey "focused").bind Json.asBool = .ok false)
    (hm : (m.atKey "focused").bind Json.asBool = .ok true)
    (hn : (m.atKey "name").bind Json.asStr = .ok n)
    (h : HyprlandSocket.construct xdg_runtime_dir signature fs_exists activewindow monitors =
      .ok s) :
    s.get_focused_output_name = n ∧
    (∀ tmux aw' clients s' w, s.get_active_window tmux aw' clients = .ok (s', w) →
      s'.get_focused_output_name = s.get_focused_output_name) ∧
    (∀ tmux aw' clients s' g, s.get_window_info tmux aw' clients = .ok (s', g) →
      s'.get_focused_output_name = s.get_focused_output_name) ∧
    (∀ tmux aw' clients appid x y s' cmds,
      s.move_window tmux aw' clients appid x y = .ok (s', cmds) →
      s'.get_focused_output_name = s.get_focused_output_name) := by
  obtain ⟨a, ha, hloop⟩ :=
    construct_ok xdg_runtime_dir signature fs_exists activewindow monitors s h
  rw [hsplit, set_active_monitor_loop_skip _ pre (m :: post) hpre] at hloop
  have hname := set_active_monitor_first_focused _ s m post n hm hn hloop
  refine ⟨hname, ?_, ?_, ?_⟩
  · intro tmux aw' clients s' w hga
    exact (get_active_window_preserves s s' tmux aw' clients w hga).2.1
  · intro tmux aw' clients s' g hgi
    obtain ⟨w, hga⟩ := get_window_info_ok s s' tmux aw' clients g hgi
    exact (get_active_window_preserves s s' tmux aw' clients w hga).2.1
  · intro tmux aw' clients appid x y s' cmds hmv
    obtain ⟨t, wid, hga, h2c, h3c⟩ := move_window_ok s s' tmux aw' clients appid x y cmds hmv
    exact (get_active_window_preserves s s' tmux aw' clients t hga).2.1

/-- C5 (witness): the sample construction caches the focused monitor's
name. -/
theorem C5_witness :
    sample_state.get_focused_output_name = "DP-1" :=
  (C5_focused_output_snapshot (some "/run/user/1000") "sig0" (fun _ => true)
    sample_activewindow sample_monitors sample_state []
    [] (.obj [("focused", .bool true), ("name", .str "DP-1"), ("scale", .num 1)]) "DP-1"
    rfl (fun m' hm' => absurd hm' (List.not_mem_nil m')) rfl rfl rfl).1

/-- C6 (counterexample): after a success the cached reference need not
match exactly one entry: with the matching entry duplicated,
`get_active_window` succeeds while two entries match. -/
theorem C6_counterexample :
    sample_state.get_active_window false Json.null dup_clients =
      .ok (sample_state, sample_client_entry) ∧
    matches_count sample_state.address dup_clients.elems = 2 ∧ (2 : Nat) ≠ 1 :=
  ⟨rfl, rfl, by decide⟩

/-- C6 (amended): whenever `get_active_window` succeeds, the cached
reference matches at least one enumerated entry (the returned one); and
zero matches over a well-formed list is the hard not-found error, not an
empty result. -/
theorem C6_amended (s s' : HyprlandSocket) (tmux_used : Bool)
    (activewindow clients : Json) (w : Json) :
    (s.get_active_window tmux_used activewindow clients = .ok (s', w) →
      w ∈ clients.elems ∧ addr_matches s'.address w = .ok true ∧
      1 ≤ matches_count s'.address clients.elems) ∧
    (refresh_address s tmux_used activewindow = .ok s' →
      (∀ e ∈ clients.elems, ∃ a, e.atKey "address" = .ok a) →
      matches_count s'.address clients.elems = 0 →
      s.get_active_window tmux_used activewindow clients = .error .windowNotFound) := by
  constructor
  · intro h
    obtain ⟨hre, hfind⟩ := get_active_window_ok s s' tmux_used activewindow clients w h
    obtain ⟨hmem, hmatch⟩ := find_client_some s'.address clients.elems w hfind
    exact ⟨hmem, hmatch, matches_count_pos s'.address clients.elems w hmem hmatch⟩
  · intro hre hwf hzero
    have hwf' : ∀ e ∈ clients.elems, ∃ b, addr_matches s'.address e = .ok b := by
      intro e he
      obtain ⟨a, ha⟩ := hwf e he
      exact ⟨_, addr_matches_total s'.address e a ha⟩
    have hall := matches_count_zero s'.address clients.elems hzero hwf'
    rw [get_active_window_eq, hre, ok_bind,
      (find_client_eq_none_iff s'.address clients.elems hwf').mpr hall, ok_bind]

/-- C6 (witness): the success half applied to the duplicated sample list:
the returned record is a matching member and the match count is
positive. -/
theorem C6_witness :
    sample_client_entry ∈ dup_clients.elems ∧
    addr_matches sample_state.address sample_client_entry = .ok true ∧
    1 ≤ matches_count sample_state.address dup_clients.elems :=
  (C6_amended sample_state sample_state false Json.null dup_clients sample_client_entry).1 rfl

/-- C7: for a constructed client, the socket path is
`RUNTIME_DIR/hypr/SIG/.socket.sock` (runtime dir defaulting to `/tmp`)
when that primary path exists, `/tmp/hypr/SIG/.socket.sock` otherwise, and
no later operation changes it. -/
theorem C7_socket_path (xdg_runtime_dir : Option String) (signature : String)
    (fs_exists : String → Bool) (activewindow monitors : Json) (s : HyprlandSocket)
    (h : HyprlandSocket.construct xdg_runtime_dir signature fs_exists activewindow monitors =
      .ok s) :
    (fs_exists ((xdg_runtime_dir.getD "/tmp") ++ "/hypr/" ++ signature ++ "/.socket.sock") =
        true →
      s.socket_path =
        (xdg_runtime_dir.getD "/tmp") ++ "/hypr/" ++ signature ++ "/.socket.sock") ∧
    (fs_exists ((xdg_runtime_dir.getD "/tmp") ++ "/hypr/" ++ signature ++ "/.socket.sock") =
        false →
      s.socket_path = "/tmp/hypr/" ++ signature ++ "/.socket.sock") ∧
    (∀ tmux aw' clients s' w, s.get_active_window tmux aw' clients = .ok (s', w) →
      s'.socket_path = s.socket_path) ∧
    (∀ tmux aw' clients s' g, s.get_window_info tmux aw' clients = .ok (s', g) →
      s'.socket_path = s.socket_path) ∧
    (∀ tmux aw' clients appid x y s' cmds,
      s.move_window tmux aw' clients appid x y = .ok (s', cmds) →
      s'.socket_path = s.socket_path) := by
  obtain ⟨a, ha, hloop⟩ :=
    construct_ok xdg_runtime_dir signature fs_exists activewindow monitors s h
  have hpath : s.socket_path = compute_socket_path xdg_runtime_dir signature fs_exists :=
    (set_active_monitor_loop_keeps _ s monitors.elems hloop).1
  refine ⟨?_, ?_, ?_, ?_, ?_⟩
  · intro hex
    rw [hpath, compute_socket_path_spec, if_pos hex]
  · intro hex
    rw [hpath, compute_socket_path_spec, if_neg (by rw [hex]; simp)]
  · intro tmux aw' clients s' w hga
    exact (get_active_window_preserves s s' tmux aw' clients w hga).1
  · intro tmux aw' clients s' g hgi
    obtain ⟨w, hga⟩ := get_window_info_ok s s' tmux aw' clients g hgi
    exact (get_active_window_preserves s s' tmux aw' clients w hga).1
  · intro tmux aw' clients appid x y s' cmds hmv
    obtain ⟨t, wid, hga, h2c, h3c⟩ := move_window_ok s s' tmux aw' clients appid x y cmds hmv
    exact (get_active_window_preserves s s' tmux aw' clients t hga).1

/-- C7 (witness): with the runtime directory set and the primary path
present, the sample construction uses the runtime-dir-based path. -/
theorem C7_witness :
    sample_state.socket_path =
      ((some "/run/user/1000").getD "/tmp") ++ "/hypr/" ++ "sig0" ++ "/.socket.sock" :=
  (C7_socket_path (some "/run/user/1000") "sig0" (fun _ => true)
    sample_activewindow sample_monitors sample_state rfl).1 rfl

/-- C8: every successful `get_window_info` call returns the geometry whose
width and height are entries 0 and 1 of the active window record's `size`
array and whose x and y are entries 0 and 1 of its `at` array. -/
theorem C8_geometry_fields (s s' : HyprlandSocket) (tmux_used : Bool)
    (activewindow clients : Json) (g : WaylandWindowGeometry)
    (h : s.get_window_info tmux_used activewindow clients = .ok (s', g)) :
    ∃ terminal sizes coords,
      s.get_active_window tmux_used activewindow clients = .ok (s', terminal) ∧
      terminal.atKey "size" = .ok sizes ∧
      terminal.atKey "at" = .ok coords ∧
      (sizes.atIdx 0).bind Json.asInt = .ok g.width ∧
      (sizes.atIdx 1).bind Json.asInt = .ok g.height ∧
      (coords.atIdx 0).bind Json.asInt = .ok g.x ∧
      (coords.atIdx 1).bind Json.asInt = .ok g.y := by
  rw [get_window_info_eq] at h
  cases hga : s.get_active_window tmux_used activewindow clients with
  | error err => rw [hga, error_bind] at h; cases h
  | ok p =>
    rw [hga, ok_bind] at h
    cases h1 : p.2.atKey "size" with
    | error err => rw [h1, error_bind] at h; cases h
    | ok sizes =>
    rw [h1, ok_bind] at h
    cases h2 : p.2.atKey "at" with
    | error err => rw [h2, error_bind] at h; cases h
    | ok coords =>
    rw [h2, ok_bind] at h
    cases h3 : sizes.atIdx 0 with
    | error err => rw [h3, error_bind] at h; cases h
    | ok j0 =>
    rw [h3, ok_bind] at h
    cases h4 : j0.asInt with
    | error err => rw [h4, error_bind] at h; cases h
    | ok width =>
    rw [h4, ok_bind] at h
    cases h5 : sizes.atIdx 1 with
    | error err => rw [h5, error_bind] at h; cases h
    | ok j1 =>
    rw [h5, ok_bind] at h
    cases h6 : j1.asInt with
    | error err => rw [h6, error_bind] at h; cases h
    | ok height =>
    rw [h6, ok_bind] at h
    cases h7 : coords.atIdx 0 with
    | error err => rw [h7, error_bind] at h; cases h
    | ok j2 =>
    rw [h7, ok_bind] at h
    cases h8 : j2.asInt with
    | error err => rw [h8, error_bind] at h; cases h
    | ok x =>
    rw [h8, ok_bind] at h
    cases h9 : coords.atIdx 1 with
    | error err => rw [h9, error_bind] at h; cases h
    | ok j3 =>
    rw [h9, ok_bind] at h
    cases h10 : j3.asInt with
    | error err => rw [h10, error_bind] at h; cases h
    | ok y =>
    rw [h10, ok_bind] at h
    have hp : (p.1, (⟨width, height, x, y⟩ : WaylandWindowGeometry)) = (s', g) := by
      injection h
    have hs' : p.1 = s' := congrArg Prod.fst hp
    have hg : (⟨width, height, x, y⟩ : WaylandWindowGeometry) = g := congrArg Prod.snd hp
    refine ⟨p.2, sizes, coords, ?_, h1, h2, ?_, ?_, ?_, ?_⟩
    · rw [← hs']
    · rw [h3, ok_bind, ← hg]; exact h4
    · rw [h5, ok_bind, ← hg]; exact h6
    · rw [h7, ok_bind, ← hg]; exact h8
    · rw [h9, ok_bind, ← hg]; exact h10

/-- C8 (witness): the sample record with `size:[800,600]` and `at:[10,20]`
maps to width 800, height 600, x 10, y 20. -/
theorem C8_witness :
    ∃ terminal sizes coords,
      sample_state.get_active_window false Json.null sample_clients =
        .ok (sample_state, terminal) ∧
      terminal.atKey "size" = .ok sizes ∧
      terminal.atKey "at" = .ok coords ∧
      (sizes.atIdx 0).bind Json.asInt =
        .ok (⟨800, 600, 10, 20⟩ : WaylandWindowGeometry).width ∧
      (sizes.atIdx 1).bind Json.asInt =
        .ok (⟨800, 600, 10, 20⟩ : WaylandWindowGeometry).height ∧
      (coords.atIdx 0).bind Json.asInt =
        .ok (⟨800, 600, 10, 20⟩ : WaylandWindowGeometry).x ∧
      (coords.atIdx 1).bind Json.asInt =
        .ok (⟨800, 600, 10, 20⟩ : WaylandWindowGeometry).y :=
  C8_geometry_fields sample_state sample_state false Json.null sample_clients
    ⟨800, 600, 10, 20⟩ rfl

/-- C9: with two or more entries matching the cached reference,
`get_active_window` raises no error and returns the first matching entry
in response order. -/
theorem C9_first_match_on_duplicates (s s' : HyprlandSocket) (tmux_used : Bool)
    (activewindow clients : Json) (pre post : List Json) (c d : Json)
    (hre : refresh_address s tmux_used activewindow = .ok s')
    (hsplit : clients.elems = pre ++ c :: post)
    (hpre : ∀ e ∈ pre, addr_matches s'.address e = .ok false)
    (hc : addr_matches s'.address c = .ok true)
    (_hd : d ∈ post) (_hdm : addr_matches s'.address d = .ok true) :
    s.get_active_window tmux_used activewindow clients = .ok (s', c) := by
  rw [get_active_window_eq, hre, ok_bind, hsplit,
    find_client_first s'.address pre c post hpre hc, ok_bind]

/-- C9 (witness): with the matching entry duplicated, the call succeeds
and returns the first occurrence. -/
theorem C9_witness :
    sample_state.get_active_window false Json.null dup_clients =
      .ok (sample_state, sample_client_entry) :=
  C9_first_match_on_duplicates sample_state sample_state false Json.null dup_clients
    [] [sample_client_entry] sample_client_entry sample_client_entry rfl rfl
    (fun e he => absurd he (List.not_mem_nil e)) rfl
    (List.mem_cons_self sample_client_entry []) rfl

/-- C10 (counterexample): the claim fails as stated.  A monitors response
whose only monitor lacks the `focused` field has no monitor with `focused`
equal to true, yet construction raises the missing-key error instead of
completing. -/
theorem C10_counterexample :
    (Json.obj []).atKey "focused" = .error (.missingKey "focused") ∧
    bad_monitors.elems = [Json.obj []] ∧
    HyprlandSocket.construct (some "/run/user/1000") "sig0" (fun _ => true)
        sample_activewindow bad_monitors = .error (.missingKey "focused") :=
  ⟨rfl, rfl, rfl⟩

/-- C10 (amended): if every monitor object of the construction-time
response has a `focused` field that converts to false (in particular when
there are no monitors at all), construction completes without error and
`get_focused_output_name` returns the empty string, the output name and
scale keeping their default-initialised values. -/
theorem C10_amended (xdg_runtime_dir : Option String) (signature : String)
    (fs_exists : String → Bool) (activewindow monitors : Json) (addr : String)
    (haw : (activewindow.atKey "address").bind Json.asStr = .ok addr)
    (hmon : ∀ m ∈ monitors.elems, (m.atKey "focused").bind Json.asBool = .ok false) :
    ∃ s, HyprlandSocket.construct xdg_runtime_dir signature fs_exists activewindow monitors =
        .ok s ∧
      s.get_focused_output_name = "" ∧
      s.output_name = default_output_name ∧ s.output_scale = default_output_scale := by
  cases hk : activewindow.atKey "address" with
  | error err => rw [hk, error_bind] at haw; cases haw
  | ok j =>
    rw [hk, ok_bind] at haw
    have trick : ∀ s0 : HyprlandSocket, set_active_monitor_loop s0 monitors.elems = .ok s0 := by
      intro s0
      have h1 : monitors.elems ++ [] = monitors.elems := List.append_nil _
      rw [← h1, set_active_monitor_loop_skip s0 monitors.elems [] hmon,
        set_active_monitor_loop_nil]
    refine ⟨{ socket_path := compute_socket_path xdg_runtime_dir signature fs_exists,
              address := addr, output_name := default_output_name,
              output_scale := default_output_scale }, ?_, rfl, rfl, rfl⟩
    rw [construct_eq, hk, ok_bind, haw, ok_bind]
    exact trick _

/-- C10 (witness): a single explicitly unfocused monitor: construction
succeeds and the focused-output name is the empty string. -/
theorem C10_witness :
    ∃ s, HyprlandSocket.construct (some "/run/user/1000") "sig0" (fun _ => true)
        sample_activewindow unfocused_monitors = .ok s ∧
      s.get_focused_output_name = "" ∧
      s.output_name = default_output_name ∧ s.output_scale = default_output_scale :=
  C10_amended (some "/run/user/1000") "sig0" (fun _ => true) sample_activewindow
    unfocused_monitors "0x1f00" rfl
    (by
      intro m hm
      have hm' : m = Json.obj [("focused", Json.bool false)] := by
        simpa [unfocused_monitors, Json.elems] using hm
      subst hm'
      rfl)
